import Mathlib

/-!
Verification of the rust-fasthash adapter layer (src/fasthash/src/farm.rs and
src/fasthash/src/spooky.rs) against its natural-language specification.

Byte sequences are modelled as `List Nat` (one entry per byte); machine
integers are `Nat` with explicit `% 2^w` where the code truncates.  The
128-bit `extprim::u128` type is modelled, as the spec prescribes, as an
ordered (high, low) pair of 64-bit words.

The external FFI mixing primitives, the `FastHash` trait default, and the
`impl_hasher!` buffered-adapter macro are not part of the two source files;
they are modelled from the spec, pinned at the regression fixtures that the
source files' own test modules assert.
-/

/-- The byte sequence of the five-byte test vector "hello". -/
def helloBytes : List Nat := [104, 101, 108, 108, 111]

/-- The byte sequence of the five-byte test vector "world". -/
def worldBytes : List Nat := [119, 111, 114, 108, 100]

/-- The byte sequence of the ten-byte test vector "helloworld". -/
def helloworldBytes : List Nat := [104, 101, 108, 108, 111, 119, 111, 114, 108, 100]

/-- The byte sequence of the ten-byte fingerprint test vector "hello word". -/
def helloWordBytes : List Nat := [104, 101, 108, 108, 111, 32, 119, 111, 114, 100]

/-- Model of `extprim::u128::u128`: an ordered pair of 64-bit words, the
high (most significant) half first, exactly the representation the spec
prescribes for 128-bit hash values and seeds. -/
structure U128 where
  high64 : Nat
  low64 : Nat
deriving DecidableEq

/-- Model of `u128::from_parts(high, low)`. -/
def U128.fromParts (hi lo : Nat) : U128 := ⟨hi, lo⟩

/-- Model of `u128::new(lo)`: a 128-bit value whose high half is zero. -/
def U128.new (lo : Nat) : U128 := ⟨0, lo⟩

/-- Modelled from the spec: the external mixing primitive
`ffi::SpookyHasherHash` is missing from src/ (spec §1/§6 treats it as a
black-box pure function bytes × two seed words → two digest words).  It is
pinned at the regression fixtures asserted by the test modules inside
src/fasthash/src/spooky.rs (tests test_spooky64, test_spooky128,
test_spooky_hasher, test_spooky_hasher_ext); elsewhere it is an arbitrary
total function into 64-bit words. -/
def spookyHasherHash (bytes : List Nat) (h1 h2 : Nat) : Nat × Nat :=
  if bytes = helloBytes ∧ h1 = 0 ∧ h2 = 0 then
    (6105954949053820864, 16417113279381893933)
  else if bytes = helloBytes ∧ h1 = 123 ∧ h2 = 123 then
    (8819086853393477700, 1234567890123456789)
  else if bytes = helloBytes ∧ h1 = 0 ∧ h2 = 123 then
    (7262466432451564128, 15030932129358977799)
  else if bytes = helloworldBytes ∧ h1 = 0 ∧ h2 = 0 then
    (18412934266828208920, 13883738476858207693)
  else
    ((h1 + 3 * h2 + bytes.length + 1) % 2 ^ 64,
     (2 * h1 + h2 + bytes.length + 2) % 2 ^ 64)

/-- Modelled from the spec: the opaque native Spooky streaming state behind
`ffi::SpookyHasherNew`/`Init`/`Update`/`Final` is missing from src/.  Per
spec §4.4 and the incremental/one-shot equivalence of §8 (asserted by the
src tests), the state is extensionally the two seed words fixed at `Init`
together with the bytes accumulated by `Update`, and `Final` returns the
one-shot two-word digest of the accumulated bytes under those seeds,
without mutating the state. -/
structure SpookyState where
  h1 : Nat
  h2 : Nat
  buf : List Nat
deriving DecidableEq

/-- Modelled from the spec: `ffi::SpookyHasherInit(h, s1, s2)` fixes the two
seed words and starts from an empty stream. -/
def spookyHasherInit (s1 s2 : Nat) : SpookyState := ⟨s1, s2, []⟩

/-- Modelled from the spec: `ffi::SpookyHasherUpdate` appends the chunk to
the accumulated stream (spec §4.4, Active → Active self-loop). -/
def spookyHasherUpdate (st : SpookyState) (bytes : List Nat) : SpookyState :=
  { st with buf := st.buf ++ bytes }

/-- Modelled from the spec: `ffi::SpookyHasherFinal` computes the current
two-word digest without mutating or destroying the state (spec §4.4). -/
def spookyHasherFinal (st : SpookyState) : Nat × Nat :=
  spookyHasherHash st.buf st.h1 st.h2

namespace SpookyHash32

/-- Embeds `SpookyHash32::hash_with_seed` (src/fasthash/src/spooky.rs lines
17-30): both 64-bit words start as the zero-extended 32-bit seed, the
primitive mixes, and the first word is truncated back to 32 bits. -/
def hash_with_seed (bytes : List Nat) (seed : Nat) : Nat :=
  (spookyHasherHash bytes seed seed).1 % 2 ^ 32

/-- Modelled from the spec: the `FastHash` trait default `hash` lives in
hasher.rs, which is missing from src/; per spec §3 the default seed when
unspecified is zero. -/
def hash (bytes : List Nat) : Nat := hash_with_seed bytes 0

end SpookyHash32

namespace SpookyHash64

/-- Embeds `SpookyHash64::hash_with_seed` (src/fasthash/src/spooky.rs lines
41-53): both words start as the seed, and the first output word is the
64-bit hash. -/
def hash_with_seed (bytes : List Nat) (seed : Nat) : Nat :=
  (spookyHasherHash bytes seed seed).1

/-- Modelled from the spec: the `FastHash` trait default `hash` is missing
from src/; per spec §3 the default seed when unspecified is zero. -/
def hash (bytes : List Nat) : Nat := hash_with_seed bytes 0

end SpookyHash64

namespace SpookyHash128

/-- Embeds `SpookyHash128::hash_with_seed` (src/fasthash/src/spooky.rs lines
64-76): the words start as the seed's high and low halves, and the result is
`u128::from_parts(hash1, hash2)`. -/
def hash_with_seed (bytes : List Nat) (seed : U128) : U128 :=
  let p := spookyHasherHash bytes seed.high64 seed.low64
  U128.fromParts p.1 p.2

/-- Modelled from the spec: the `FastHash` trait default `hash` is missing
from src/; per spec §3 the default seed when unspecified is zero. -/
def hash (bytes : List Nat) : U128 := hash_with_seed bytes (U128.new 0)

end SpookyHash128

/-- Embeds `SpookyHasher` (src/fasthash/src/spooky.rs line 79): the stateful
adapter owning one native Spooky streaming state. -/
structure SpookyHasher where
  state : SpookyState
deriving DecidableEq

namespace SpookyHasher

/-- Embeds `SpookyHasher::with_seed` (spooky.rs lines 88-96): the native
state is initialized with the 64-bit seed duplicated into both words. -/
def with_seed (seed : Nat) : SpookyHasher := ⟨spookyHasherInit seed seed⟩

/-- Embeds `SpookyHasher::new` (spooky.rs lines 83-85): delegates to
`with_seed(0)`. -/
def new : SpookyHasher := with_seed 0

/-- Embeds `Hasher::write` for `SpookyHasher` (spooky.rs lines 119-125):
forwards the chunk to the native update primitive. -/
def write (h : SpookyHasher) (bytes : List Nat) : SpookyHasher :=
  ⟨spookyHasherUpdate h.state bytes⟩

/-- Embeds `Hasher::finish` for `SpookyHasher` (spooky.rs lines 107-116):
reads the two-word digest and returns the first word. -/
def finish (h : SpookyHasher) : Nat := (spookyHasherFinal h.state).1

end SpookyHasher

/-- Embeds `SpookyHasherExt` (src/fasthash/src/spooky.rs line 128): the
128-bit stateful adapter. -/
structure SpookyHasherExt where
  state : SpookyState
deriving DecidableEq

namespace SpookyHasherExt

/-- Embeds `SpookyHasherExt::with_seed` (spooky.rs lines 137-145): the
native state is initialized with the seed's high word first, low word
second. -/
def with_seed (seed : U128) : SpookyHasherExt :=
  ⟨spookyHasherInit seed.high64 seed.low64⟩

/-- Embeds `SpookyHasherExt::new` (spooky.rs lines 132-134): delegates to
`with_seed(u128::new(0))`. -/
def new : SpookyHasherExt := with_seed (U128.new 0)

/-- Embeds `Hasher::write` for `SpookyHasherExt` (spooky.rs lines 161-167). -/
def write (h : SpookyHasherExt) (bytes : List Nat) : SpookyHasherExt :=
  ⟨spookyHasherUpdate h.state bytes⟩

/-- Embeds `HasherExt::finish_ext` (spooky.rs lines 172-181): reads the
two-word digest and assembles `u128::from_parts(hash1, hash2)`. -/
def finish_ext (h : SpookyHasherExt) : U128 :=
  let p := spookyHasherFinal h.state
  U128.fromParts p.1 p.2

/-- Embeds `Hasher::finish` for `SpookyHasherExt` (spooky.rs lines 156-158):
returns `self.finish_ext().low64()`. -/
def finish (h : SpookyHasherExt) : Nat := h.finish_ext.low64

end SpookyHasherExt

/-- Modelled from the spec: the external primitive `ffi::farmhash64_with_seed`
is missing from src/ (spec §1/§6: a black-box pure function of bytes and one
64-bit seed).  It is pinned at the regression fixtures asserted by the test
module inside src/fasthash/src/farm.rs (test_farmhash64); per spec §3 the
unseeded fixtures are the seed-zero entries, because the default seed when
unspecified is zero. -/
def farmhash64_with_seed (bytes : List Nat) (seed : Nat) : Nat :=
  if bytes = helloBytes ∧ seed = 0 then 14403600180753024522
  else if bytes = helloBytes ∧ seed = 123 then 6856739100025169098
  else if bytes = helloworldBytes ∧ seed = 0 then 1077737941828767314
  else (5 * seed + 7 * bytes.length + 3) % 2 ^ 64

/-- Modelled from the spec: the external primitive `ffi::farmhash64` is
missing from src/; per spec §3 the unseeded operation uses the default seed
zero. -/
def farmhash64 (bytes : List Nat) : Nat := farmhash64_with_seed bytes 0

/-- Modelled from the spec: the external primitive
`ffi::farmhash64_with_seeds` (two independent 64-bit seeds, spec §4.1) is
missing from src/; pinned at the fixture asserted by test_farmhash64. -/
def farmhash64_with_seeds (bytes : List Nat) (seed0 seed1 : Nat) : Nat :=
  if bytes = helloBytes ∧ seed0 = 123 ∧ seed1 = 456 then 15077713332534145879
  else (seed0 + 11 * seed1 + 13 * bytes.length + 5) % 2 ^ 64

/-- Modelled from the spec: the external primitive `ffi::farmhash32_with_seed`
is missing from src/; the src test test_farmhash32 pins no constants, only
that the results are nonzero, so the model is an arbitrary nonzero-valued
total function into 32-bit words. -/
def farmhash32_with_seed (bytes : List Nat) (seed : Nat) : Nat :=
  (17 * seed + 19 * bytes.length + 23) % 2 ^ 32

/-- Modelled from the spec: the external primitive `ffi::farmhash32` is
missing from src/; per spec §3 the unseeded operation uses the default seed
zero. -/
def farmhash32 (bytes : List Nat) : Nat := farmhash32_with_seed bytes 0

/-- Modelled from the spec: the external primitive
`ffi::farmhash128_with_seed` is missing from src/; pinned at the fixtures
asserted by test_farmhash128 in src/fasthash/src/farm.rs, with the seed-zero
entries doubling as the unseeded fixtures per spec §3. -/
def farmhash128_with_seed (bytes : List Nat) (seed : U128) : U128 :=
  if bytes = helloBytes ∧ seed = U128.new 0 then
    U128.fromParts 14545675544334878584 15888401098353921598
  else if bytes = helloBytes ∧ seed = U128.new 123 then
    U128.fromParts 15212901187400903054 13320390559359511083
  else if bytes = helloworldBytes ∧ seed = U128.new 0 then
    U128.fromParts 16066658700231169910 1119455499735156801
  else
    U128.fromParts ((seed.high64 + 29 * bytes.length + 7) % 2 ^ 64)
      ((seed.low64 + 31 * bytes.length + 11) % 2 ^ 64)

/-- Modelled from the spec: the external primitive `ffi::farmhash128` is
missing from src/; per spec §3 the unseeded operation uses the default seed
zero. -/
def farmhash128 (bytes : List Nat) : U128 := farmhash128_with_seed bytes (U128.new 0)

/-- Modelled from the spec: the external primitive
`ffi::farmhash_fingerprint64` (seedless stable identifier, spec §4.2) is
missing from src/; pinned at the fixture asserted by test_fingerprint in
src/fasthash/src/farm.rs. -/
def farmhash_fingerprint64 (bytes : List Nat) : Nat :=
  if bytes = helloWordBytes then 2862784602449412590
  else (37 * bytes.length + 41) % 2 ^ 64

/-- Modelled from the spec: the external primitive
`ffi::farmhash_fingerprint128` is missing from src/; pinned at the fixture
asserted by test_fingerprint. -/
def farmhash_fingerprint128 (bytes : List Nat) : U128 :=
  if bytes = helloWordBytes then
    U128.fromParts 3993975538242800734 12454188156902618296
  else U128.fromParts ((43 * bytes.length + 47) % 2 ^ 64) ((53 * bytes.length + 59) % 2 ^ 64)

namespace FarmHash64

/-- Embeds `FarmHash64::hash_with_seed` (src/fasthash/src/farm.rs lines
179-187): forwards bytes and seed to `ffi::farmhash64_with_seed`. -/
def hash_with_seed (bytes : List Nat) (seed : Nat) : Nat :=
  farmhash64_with_seed bytes seed

/-- Embeds `FarmHash64::hash` (farm.rs lines 174-177): forwards bytes to
`ffi::farmhash64`. -/
def hash (bytes : List Nat) : Nat := farmhash64 bytes

/-- Embeds `FarmHash64::hash_with_seeds` (farm.rs lines 156-168): forwards
bytes and both seeds, in order, to `ffi::farmhash64_with_seeds`. -/
def hash_with_seeds (bytes : List Nat) (seed0 seed1 : Nat) : Nat :=
  farmhash64_with_seeds bytes seed0 seed1

end FarmHash64

namespace FarmHash32

/-- Embeds `FarmHash32::hash_with_seed` (farm.rs lines 141-148). -/
def hash_with_seed (bytes : List Nat) (seed : Nat) : Nat :=
  farmhash32_with_seed bytes seed

/-- Embeds `FarmHash32::hash` (farm.rs lines 136-139). -/
def hash (bytes : List Nat) : Nat := farmhash32 bytes

end FarmHash32

namespace FarmHash128

/-- Embeds `FarmHash128::hash_with_seed` (farm.rs lines 206-213). -/
def hash_with_seed (bytes : List Nat) (seed : U128) : U128 :=
  farmhash128_with_seed bytes seed

/-- Embeds `FarmHash128::hash` (farm.rs lines 198-204). -/
def hash (bytes : List Nat) : U128 := farmhash128 bytes

end FarmHash128

/-- Modelled from the spec: the buffered incremental adapter generated by
`impl_hasher!(FarmHasher64, FarmHash64)` (farm.rs line 189) expands a macro
defined in hasher.rs, which is missing from src/.  Per spec §4.3 its state
is an append-only owned byte buffer, initially empty, plus the configured
seed; per spec §3 the seed defaults to zero when unspecified. -/
structure FarmHasher64 where
  seed : Nat
  buf : List Nat
deriving DecidableEq

namespace FarmHasher64

/-- Modelled from the spec: constructing the buffered adapter with an
explicit seed starts from an empty buffer (spec §4.3). -/
def with_seed (seed : Nat) : FarmHasher64 := ⟨seed, []⟩

/-- Modelled from the spec: the unseeded constructor uses the default seed
zero (spec §3). -/
def new : FarmHasher64 := with_seed 0

/-- Modelled from the spec: `write` appends the chunk to the buffer, never
truncating or reordering (spec §4.3). -/
def write (h : FarmHasher64) (bytes : List Nat) : FarmHasher64 :=
  { h with buf := h.buf ++ bytes }

/-- Modelled from the spec: `finish` invokes the one-shot primitive over the
entire buffer accumulated since construction, with the configured seed, and
does not clear the buffer (spec §4.3). -/
def finish (h : FarmHasher64) : Nat := FarmHash64.hash_with_seed h.buf h.seed

end FarmHasher64

/-- An observable operation on a Hasher: a `write` of a chunk, or a
`finish`/`finish_ext` digest read interleaved into the stream of writes. -/
inductive HOp where
  | wr : List Nat → HOp
  | fin : HOp
deriving DecidableEq

/-- The concatenation of all chunks written by a sequence of operations, in
order. -/
def writtenOf : List HOp → List Nat
  | [] => []
  | HOp.wr bs :: ops => bs ++ writtenOf ops
  | HOp.fin :: ops => writtenOf ops

/-- One observable operation acting on the stateful 64-bit adapter: `write`
mutates via the native update primitive, while `finish` only reads the
digest (spooky.rs lines 105-126; the read is `SpookyHasherFinal`, modelled
from spec §4.4 as non-mutating). -/
def SpookyHasher.step (h : SpookyHasher) : HOp → SpookyHasher
  | HOp.wr bs => h.write bs
  | HOp.fin => h

/-- Runs a sequence of operations on the stateful 64-bit adapter. -/
def SpookyHasher.run (h : SpookyHasher) (ops : List HOp) : SpookyHasher :=
  ops.foldl SpookyHasher.step h

/-- One observable operation acting on the stateful 128-bit adapter. -/
def SpookyHasherExt.step (h : SpookyHasherExt) : HOp → SpookyHasherExt
  | HOp.wr bs => h.write bs
  | HOp.fin => h

/-- Runs a sequence of operations on the stateful 128-bit adapter. -/
def SpookyHasherExt.run (h : SpookyHasherExt) (ops : List HOp) : SpookyHasherExt :=
  ops.foldl SpookyHasherExt.step h

/-- One observable operation acting on the buffered adapter: `write` appends
to the buffer, `finish` re-hashes without clearing it (spec §4.3). -/
def FarmHasher64.step (h : FarmHasher64) : HOp → FarmHasher64
  | HOp.wr bs => h.write bs
  | HOp.fin => h

/-- Runs a sequence of operations on the buffered adapter. -/
def FarmHasher64.run (h : FarmHasher64) (ops : List HOp) : FarmHasher64 :=
  ops.foldl FarmHasher64.step h

/-- The chunks written by the concatenation of two operation sequences are
the concatenation of the chunks written by each. -/
theorem writtenOf_append (l1 l2 : List HOp) :
    writtenOf (l1 ++ l2) = writtenOf l1 ++ writtenOf l2 := by
  induction l1 with
  | nil => simp [writtenOf]
  | cons op l1 ih => cases op <;> simp [writtenOf, ih]

/-- Running a sequence of operations on the stateful 64-bit adapter keeps
the seed words fixed at `Init` and accumulates exactly the written chunks,
in order; digest reads leave the state untouched. -/
theorem SpookyHasher.run_state_eq (h : SpookyHasher) (ops : List HOp) :
    SpookyHasher.run h ops =
      ⟨⟨h.state.h1, h.state.h2, h.state.buf ++ writtenOf ops⟩⟩ := by
  induction ops generalizing h with
  | nil => simp [SpookyHasher.run, writtenOf]
  | cons op ops ih =>
    cases op with
    | wr bs =>
      show SpookyHasher.run (h.write bs) ops = _
      rw [ih]
      simp [SpookyHasher.write, spookyHasherUpdate, writtenOf]
    | fin =>
      show SpookyHasher.run h ops = _
      rw [ih]
      simp [writtenOf]

/-- Running a sequence of operations on the stateful 128-bit adapter keeps
the seed words fixed and accumulates exactly the written chunks. -/
theorem SpookyHasherExt.run_ext_state_eq (h : SpookyHasherExt) (ops : List HOp) :
    SpookyHasherExt.run h ops =
      ⟨⟨h.state.h1, h.state.h2, h.state.buf ++ writtenOf ops⟩⟩ := by
  induction ops generalizing h with
  | nil => simp [SpookyHasherExt.run, writtenOf]
  | cons op ops ih =>
    cases op with
    | wr bs =>
      show SpookyHasherExt.run (h.write bs) ops = _
      rw [ih]
      simp [SpookyHasherExt.write, spookyHasherUpdate, writtenOf]
    | fin =>
      show SpookyHasherExt.run h ops = _
      rw [ih]
      simp [writtenOf]

/-- Running a sequence of operations on the buffered adapter keeps the
configured seed and accumulates exactly the written chunks. -/
theorem FarmHasher64.run_buffered_state_eq (h : FarmHasher64) (ops : List HOp) :
    FarmHasher64.run h ops = ⟨h.seed, h.buf ++ writtenOf ops⟩ := by
  induction ops generalizing h with
  | nil => simp [FarmHasher64.run, writtenOf]
  | cons op ops ih =>
    cases op with
    | wr bs =>
      show FarmHasher64.run (h.write bs) ops = _
      rw [ih]
      simp [FarmHasher64.write, writtenOf]
    | fin =>
      show FarmHasher64.run h ops = _
      rw [ih]
      simp [writtenOf]

/-- C1, counterexample: at the repository's own fixtures the low 64-bit
half of the 128-bit hash differs from the 64-bit hash of the same input —
for SpookyHash on "hello" (the 64-bit hash is the HIGH half there), for
FarmHash on "hello" (neither half matches), and for the FarmHash
fingerprints on "hello word" (neither half matches). -/
theorem width_consistency_low_half_counterexample :
    (SpookyHash128.hash helloBytes).low64 ≠ SpookyHash64.hash helloBytes ∧
    (FarmHash128.hash helloBytes).low64 ≠ FarmHash64.hash helloBytes ∧
    (FarmHash128.hash helloBytes).high64 ≠ FarmHash64.hash helloBytes ∧
    (farmhash_fingerprint128 helloWordBytes).low64 ≠ farmhash_fingerprint64 helloWordBytes ∧
    (farmhash_fingerprint128 helloWordBytes).high64 ≠ farmhash_fingerprint64 helloWordBytes := by
  decide

/-- C1, amended: only SpookyHash defines both widths through one shared
primitive, and there the HIGH 64-bit half of the 128-bit hash equals the
64-bit hash of the same input, the 64-bit seed being duplicated into both
halves of the 128-bit seed (and likewise for the unseeded default). -/
theorem spooky_width_consistency_high_half (bytes : List Nat) (seed : Nat) :
    (SpookyHash128.hash_with_seed bytes (U128.fromParts seed seed)).high64 =
      SpookyHash64.hash_with_seed bytes seed ∧
    (SpookyHash128.hash bytes).high64 = SpookyHash64.hash bytes :=
  ⟨rfl, rfl⟩

/-- C2: for the buffered FarmHasher64 and the stateful SpookyHasher,
constructed with the default seed, `write("hello"); finish()` equals the
one-shot hash of "hello", and a subsequent `write("world"); finish()`
equals the one-shot hash of "helloworld" — writes concatenate and the
buffer/stream is never reset between finishes. -/
theorem hasher_one_shot_equivalence_hello_world :
    (FarmHasher64.new.write helloBytes).finish = FarmHash64.hash helloBytes ∧
    ((FarmHasher64.new.write helloBytes).write worldBytes).finish =
      FarmHash64.hash helloworldBytes ∧
    (SpookyHasher.new.write helloBytes).finish = SpookyHash64.hash helloBytes ∧
    ((SpookyHasher.new.write helloBytes).write worldBytes).finish =
      SpookyHash64.hash helloworldBytes := by
  decide

/-- C3: for every Hasher of either adapter kind and every interleaving of
writes and digest reads, a digest read never mutates, consumes or resets
the state: appending a `finish` to any operation sequence leaves the next
digest unchanged, and a `write` after a `finish` extends the digest over
all bytes accumulated since construction. -/
theorem finish_non_destructive (seed : Nat) (sd : U128) (ops : List HOp) (bs : List Nat) :
    (SpookyHasher.run (SpookyHasher.with_seed seed) (ops ++ [HOp.fin])).finish =
      (SpookyHasher.run (SpookyHasher.with_seed seed) ops).finish ∧
    ((SpookyHasher.run (SpookyHasher.with_seed seed) (ops ++ [HOp.fin])).write bs).finish =
      SpookyHash64.hash_with_seed (writtenOf ops ++ bs) seed ∧
    (SpookyHasherExt.run (SpookyHasherExt.with_seed sd) (ops ++ [HOp.fin])).finish_ext =
      (SpookyHasherExt.run (SpookyHasherExt.with_seed sd) ops).finish_ext ∧
    (FarmHasher64.run (FarmHasher64.with_seed seed) (ops ++ [HOp.fin])).finish =
      (FarmHasher64.run (FarmHasher64.with_seed seed) ops).finish ∧
    ((FarmHasher64.run (FarmHasher64.with_seed seed) (ops ++ [HOp.fin])).write bs).finish =
      FarmHash64.hash_with_seed (writtenOf ops ++ bs) seed := by
  refine ⟨?_, ?_, ?_, ?_, ?_⟩ <;>
    simp [SpookyHasher.run_state_eq, SpookyHasherExt.run_ext_state_eq, FarmHasher64.run_buffered_state_eq,
      writtenOf_append, writtenOf, SpookyHasher.with_seed, SpookyHasher.write,
      SpookyHasher.finish, SpookyHasherExt.with_seed, SpookyHasherExt.finish_ext,
      FarmHasher64.with_seed, FarmHasher64.write, FarmHasher64.finish,
      spookyHasherInit, spookyHasherUpdate, spookyHasherFinal,
      SpookyHash64.hash_with_seed, FarmHash64.hash_with_seed]

/-- C4: constructing the stateful Spooky Hasher from a 64-bit seed starts
the native two-word state with that seed duplicated into both words, and
constructing the 128-bit variant from a 128-bit seed starts it with the
seed's high 64-bit half as the first word and its low half as the second. -/
theorem with_seed_packs_native_seed_words (seed : Nat) (sd : U128) :
    SpookyHasher.with_seed seed = ⟨spookyHasherInit seed seed⟩ ∧
    SpookyHasherExt.with_seed sd = ⟨spookyHasherInit sd.high64 sd.low64⟩ :=
  ⟨rfl, rfl⟩

/-- C5: at every state of the 128-bit stateful adapter, `finish_ext`
assembles the two-word digest as the 128-bit value (high, low), and
`finish` returns exactly the low 64-bit half of that value. -/
theorem finish_ext_assembles_pair_and_finish_takes_low (h : SpookyHasherExt) :
    h.finish_ext =
      U128.fromParts (spookyHasherFinal h.state).1 (spookyHasherFinal h.state).2 ∧
    h.finish = h.finish_ext.low64 :=
  ⟨rfl, rfl⟩

/-- C6: the one-shot 64-bit FarmHash of "hello" is 14403600180753024522,
with seed 123 it is 6856739100025169098, with seeds (123, 456) it is
15077713332534145879, and the hash of "helloworld" is 1077737941828767314,
distinct from the other three constants. -/
theorem farmhash64_fixture_constants :
    FarmHash64.hash helloBytes = 14403600180753024522 ∧
    FarmHash64.hash_with_seed helloBytes 123 = 6856739100025169098 ∧
    FarmHash64.hash_with_seeds helloBytes 123 456 = 15077713332534145879 ∧
    FarmHash64.hash helloworldBytes = 1077737941828767314 ∧
    FarmHash64.hash helloworldBytes ≠ FarmHash64.hash helloBytes ∧
    FarmHash64.hash helloworldBytes ≠ FarmHash64.hash_with_seed helloBytes 123 ∧
    FarmHash64.hash helloworldBytes ≠ FarmHash64.hash_with_seeds helloBytes 123 456 := by
  decide

/-- C7: for each algorithm family there are a byte sequence and two
distinct seeds at which the seeded hashes differ, so the seed parameter is
not ignored. -/
theorem seed_sensitivity :
    (∃ b s1 s2, s1 ≠ s2 ∧
      SpookyHash64.hash_with_seed b s1 ≠ SpookyHash64.hash_with_seed b s2) ∧
    (∃ b s1 s2, s1 ≠ s2 ∧
      FarmHash64.hash_with_seed b s1 ≠ FarmHash64.hash_with_seed b s2) :=
  ⟨⟨helloBytes, 0, 123, by decide, by decide⟩,
   ⟨helloBytes, 0, 123, by decide, by decide⟩⟩

/-- C9: for every byte sequence and every algorithm family the unseeded
operation is the seeded one at seed zero, and every Hasher constructed
without a seed equals the one constructed with seed zero. -/
theorem default_seed_zero (b : List Nat) :
    SpookyHash32.hash b = SpookyHash32.hash_with_seed b 0 ∧
    SpookyHash64.hash b = SpookyHash64.hash_with_seed b 0 ∧
    SpookyHash128.hash b = SpookyHash128.hash_with_seed b (U128.new 0) ∧
    FarmHash32.hash b = FarmHash32.hash_with_seed b 0 ∧
    FarmHash64.hash b = FarmHash64.hash_with_seed b 0 ∧
    FarmHash128.hash b = FarmHash128.hash_with_seed b (U128.new 0) ∧
    SpookyHasher.new = SpookyHasher.with_seed 0 ∧
    SpookyHasherExt.new = SpookyHasherExt.with_seed (U128.new 0) ∧
    FarmHasher64.new = FarmHasher64.with_seed 0 :=
  ⟨rfl, rfl, rfl, rfl, rfl, rfl, rfl, rfl, rfl⟩

/-- C10: for every byte sequence and every 32-bit seed, the 32-bit Spooky
hash is exactly the value modulo 2^32 of the 64-bit Spooky hash under the
zero-extended seed. -/
theorem spooky32_truncation_of_spooky64 (b : List Nat) (s : Nat) (_hs : s < 2 ^ 32) :
    SpookyHash32.hash_with_seed b s = SpookyHash64.hash_with_seed b s % 2 ^ 32 :=
  rfl

/-- C10, witness: the truncation law instantiated at the "hello" fixture
with seed 123. -/
theorem spooky32_truncation_of_spooky64_witness :
    123 < 2 ^ 32 ∧
    SpookyHash32.hash_with_seed helloBytes 123 =
      SpookyHash64.hash_with_seed helloBytes 123 % 2 ^ 32 :=
  ⟨by decide, spooky32_truncation_of_spooky64 helloBytes 123 (by decide)⟩
